import Mathlib

/-
Verification of the performance-bottleneck-analyzer analytics engine.

This file shallowly embeds the core of the repository in Lean 4:
  - packages/analytics-engine/src/statistics.ts   (pure statistics helpers)
  - packages/analytics-engine/src/thresholds.ts   (severity classifier)
  - packages/analytics-engine/src/detector.ts     (RegressionDetector)

JavaScript numbers are embedded as rationals.  The one operation on numbers
that has no rational counterpart, Math.sqrt, is threaded through the
definitions as an explicit parameter `sq : Q -> Q`; every theorem below is
universally quantified over `sq` (none of the verified properties depend on
square-root values, only on the structure of the computations around them).
Date.now() is likewise embedded as an explicit `now` parameter supplied at
each detectRegressions call.
-/

set_option autoImplicit false

attribute [local semireducible] Rat.add Rat.mul Rat.sub Rat.inv Rat.ofScientific

namespace Analyzer

/-- Severity label produced by the threshold classifier. -/
inductive Severity where
  | critical
  | warning
  | info
deriving DecidableEq

/-- Anomaly direction label. -/
inductive Direction where
  | up
  | down
  | none
deriving DecidableEq

/-- Trend direction label produced by linearTrend. -/
inductive TrendDirection where
  | improving
  | degrading
  | stable
deriving DecidableEq

/-- Embedding of the MetricDataPoint interface (types.ts).  The optional
fields pathname, rating and sessionId are never read by the analytics core
and are omitted from the embedding. -/
structure MetricDataPoint where
  name : String
  value : ℚ
  timestamp : ℚ
  url : Option String
deriving DecidableEq

/-- Embedding of the MetricThresholds interface (types.ts). -/
structure MetricThresholds where
  good : ℚ
  needsImprovement : ℚ
deriving DecidableEq

/-- Embedding of the AnalyticsConfig interface (types.ts).  The optional
customThresholds record is embedded as a lookup function, with
`fun _ => Option.none` standing for an absent record. -/
structure AnalyticsConfig where
  windowSize : ℕ
  zScoreThreshold : ℚ
  minSamples : ℕ
  regressionPercentThreshold : ℚ
  customThresholds : String → Option MetricThresholds

/-- Embedding of the AnomalyResult interface (types.ts). -/
structure AnomalyResult where
  metric : String
  value : ℚ
  timestamp : ℚ
  zScore : ℚ
  isAnomaly : Bool
  direction : Direction
deriving DecidableEq

/-- Embedding of the RegressionAlert interface (types.ts). -/
structure RegressionAlert where
  metric : String
  url : Option String
  previousValue : ℚ
  currentValue : ℚ
  absoluteChange : ℚ
  percentageChange : ℚ
  zScore : ℚ
  severity : Severity
  detectedAt : ℚ
  windowSize : ℕ
  message : String
deriving DecidableEq

/-- Embedding of the anonymous record returned by analyzeTrend (detector.ts). -/
structure TrendSummary where
  direction : TrendDirection
  slope : ℚ
  ewmaValues : List ℚ
  recentMean : ℚ
  baselineMean : ℚ
deriving DecidableEq

/-- Result record of linearTrend (statistics.ts). -/
structure TrendResult where
  slope : ℚ
  direction : TrendDirection
deriving DecidableEq

/-! ## JavaScript Array.prototype.slice -/

/-- Embedding of JavaScript `l.slice(start, stop)` for integer arguments:
negative indices count from the end of the array, and the result is the
half-open range of elements between the clamped indices.  (JavaScript
normalizes the float -0 to the index 0; integers have no -0, so passing
`-(w : Int)` with `w = 0` here agrees with `slice(-w, ...)` there.) -/
def jsSlice {α : Type} (l : List α) (start stop : Int) : List α :=
  let n : Int := l.length
  let s := if start < 0 then max (n + start) 0 else min start n
  let e := if stop < 0 then max (n + stop) 0 else min stop n
  (l.take e.toNat).drop s.toNat

/-- Embedding of JavaScript `l.slice(start)` (one-argument form). -/
def jsSliceFrom {α : Type} (l : List α) (start : Int) : List α :=
  jsSlice l start l.length

/-! ## statistics.ts -/

/-- Embedding of mean (statistics.ts): 0 on the empty list, otherwise the
arithmetic mean via a left fold, as in `values.reduce((sum, v) => sum + v, 0)`. -/
def mean (values : List ℚ) : ℚ :=
  if values.length = 0 then 0
  else values.foldl (fun sum v => sum + v) 0 / values.length

/-- Embedding of variance (statistics.ts): sample variance (divide by n-1),
0 when fewer than two values. -/
def variance (values : List ℚ) : ℚ :=
  if values.length < 2 then 0
  else values.foldl (fun sum v => sum + (v - mean values) ^ 2) 0 / ((values.length : ℚ) - 1)

/-- Embedding of stdDev (statistics.ts), which is `Math.sqrt(variance(values))`.
The square root of a rational is irrational in general, so the embedding
receives the square-root function `sq` as a parameter; all theorems are
quantified over it. -/
def stdDev (sq : ℚ → ℚ) (values : List ℚ) : ℚ :=
  sq (variance values)

/-- Embedding of zScore (statistics.ts): `(value - mean) / stdDev`, with an
explicit guard returning 0 when the standard deviation is 0. -/
def zScore (value populationMean populationStdDev : ℚ) : ℚ :=
  if populationStdDev = 0 then 0
  else (value - populationMean) / populationStdDev

/-- Tail of the EWMA recurrence: each output is
`alpha * v + (1 - alpha) * prev` where prev is the previous output. -/
def ewmaGo (alpha : ℚ) (prev : ℚ) : List ℚ → List ℚ
  | [] => []
  | v :: rest =>
      let cur := alpha * v + (1 - alpha) * prev
      cur :: ewmaGo alpha cur rest

/-- Embedding of ewma (statistics.ts): empty input gives an empty output;
otherwise the first output is the first input (seed) and each later output
is `alpha * v + (1 - alpha) * previousOutput`. -/
def ewma (values : List ℚ) (alpha : ℚ) : List ℚ :=
  match values with
  | [] => []
  | v :: rest => v :: ewmaGo alpha v rest

/-- Least-squares slope of value against index, exactly as computed inside
linearTrend (statistics.ts): `xMean = (n-1)/2`, `yMean = mean values`,
numerator and denominator accumulated over the indexed values, and a guard
returning 0 when the denominator is 0. -/
def lsSlope (values : List ℚ) : ℚ :=
  let n := values.length
  let xMean := ((n : ℚ) - 1) / 2
  let yMean := mean values
  let numerator := values.enum.foldl
    (fun acc iv => acc + ((iv.1 : ℚ) - xMean) * (iv.2 - yMean)) 0
  let denominator := (List.range n).foldl
    (fun acc i => acc + ((i : ℚ) - xMean) ^ 2) 0
  if denominator = 0 then 0 else numerator / denominator

/-- Slope normalized by the series mean, exactly as computed inside
linearTrend (statistics.ts): 0 when the mean is 0, else slope / mean. -/
def normalizedSlope (values : List ℚ) : ℚ :=
  if mean values = 0 then 0 else lsSlope values / mean values

/-- Embedding of linearTrend (statistics.ts): fewer than two values gives
slope 0 and a stable direction; otherwise the least-squares slope, with the
direction decided by the normalized slope (threshold 0.005 = 1/200;
increasing values mean degrading performance). -/
def linearTrend (values : List ℚ) : TrendResult :=
  if values.length < 2 then { slope := 0, direction := TrendDirection.stable }
  else
    let slope := lsSlope values
    let ns := normalizedSlope values
    let direction :=
      if |ns| < 1 / 200 then TrendDirection.stable
      else if ns > 0 then TrendDirection.degrading
      else TrendDirection.improving
    { slope := slope, direction := direction }

/-! ## thresholds.ts -/

/-- Embedding of the WEB_VITALS_THRESHOLDS table (thresholds.ts) as a lookup
function on metric names. -/
def webVitalsThresholds (name : String) : Option MetricThresholds :=
  if name = "LCP" then some { good := 2500, needsImprovement := 4000 }
  else if name = "FID" then some { good := 100, needsImprovement := 300 }
  else if name = "CLS" then some { good := 1/10, needsImprovement := 1/4 }
  else if name = "INP" then some { good := 200, needsImprovement := 500 }
  else if name = "TTFB" then some { good := 800, needsImprovement := 1800 }
  else if name = "FCP" then some { good := 1800, needsImprovement := 3000 }
  else if name = "long-task" then some { good := 50, needsImprovement := 100 }
  else if name = "resource-load" then some { good := 500, needsImprovement := 1500 }
  else none

/-- Embedding of the lookup `customThresholds?.[name] || WEB_VITALS_THRESHOLDS[name]`
shared by rateMetric and getSeverity (thresholds.ts): the caller-supplied
override map wins when it has an entry for the name. -/
def lookupThresholds (custom : String → Option MetricThresholds) (name : String) :
    Option MetricThresholds :=
  match custom name with
  | some t => some t
  | none => webVitalsThresholds name

/-- Embedding of getSeverity (thresholds.ts): with no threshold entry the
severity is info; otherwise the ratio value / needsImprovement is compared
against 1.5 and 1.0. -/
def getSeverity (name : String) (value : ℚ)
    (custom : String → Option MetricThresholds) : Severity :=
  match lookupThresholds custom name with
  | none => Severity.info
  | some thresholds =>
      let ratioVal := value / thresholds.needsImprovement
      if ratioVal > 3/2 then Severity.critical
      else if ratioVal > 1 then Severity.warning
      else Severity.info

/-! ## detector.ts -/

/-- Embedding of DEFAULT_CONFIG (detector.ts). -/
def defaultConfig : AnalyticsConfig :=
  { windowSize := 30
    zScoreThreshold := 5/2
    minSamples := 10
    regressionPercentThreshold := 1/5
    customThresholds := fun _ => none }

/-- Embedding of the private key helper (detector.ts):
`url ? name + "|" + url : name`.  JavaScript truthiness makes the empty
string behave like an absent url. -/
def seriesKeyFor (name : String) (url : Option String) : String :=
  match url with
  | some u => if u = "" then name else name ++ "|" ++ u
  | none => name

/-- Splits a list of characters at every bar character, mirroring
JavaScript String.prototype.split with separator "|". -/
def splitCharsOnBar : List Char → List (List Char)
  | [] => [[]]
  | c :: rest =>
      let r := splitCharsOnBar rest
      if c = '|' then [] :: r
      else
        match r with
        | [] => [[c]]
        | g :: gs => (c :: g) :: gs

/-- Embedding of `seriesKey.split(String.fromCharCode(124))` used by
detectRegressions (detector.ts). -/
def splitKey (s : String) : List String :=
  (splitCharsOnBar s.data).map (fun cs => String.mk cs)

/-- Embedding of `seriesKey.split(...)[0]` (detector.ts): the split of a
string is never empty, so the default is unreachable. -/
def metricNameOfKey (k : String) : String :=
  (splitKey k).headD ""

/-- Embedding of `seriesKey.includes(...) ? seriesKey.split(...)[1] : undefined`
(detector.ts): a key contains a bar exactly when its split has a second part. -/
def urlOfKey (k : String) : Option String :=
  match splitKey k with
  | _ :: u :: _ => some u
  | _ => none

/-- Lookup in the insertion-ordered series map (JavaScript Map.get). -/
def mapGet (m : List (String × List MetricDataPoint)) (k : String) :
    Option (List MetricDataPoint) :=
  match m with
  | [] => none
  | kv :: rest => if kv.1 = k then some kv.2 else mapGet rest k

/-- Update in the insertion-ordered series map (JavaScript Map.set): an
existing key is updated in place, a new key is appended at the end. -/
def mapSet (m : List (String × List MetricDataPoint)) (k : String)
    (v : List MetricDataPoint) : List (String × List MetricDataPoint) :=
  match m with
  | [] => [(k, v)]
  | kv :: rest => if kv.1 = k then (k, v) :: rest else kv :: mapSet rest k v

/-- Removal from the insertion-ordered series map (JavaScript Map.delete). -/
def mapDelete (m : List (String × List MetricDataPoint)) (k : String) :
    List (String × List MetricDataPoint) :=
  m.filter (fun kv => kv.1 ≠ k)

/-- State of a RegressionDetector instance (detector.ts): the merged
configuration and the series map keyed by "metricName|url". -/
structure DetectorState where
  config : AnalyticsConfig
  series : List (String × List MetricDataPoint)

/-- Embedding of the RegressionDetector constructor, applied to an already
merged configuration (the source merges a partial override into
DEFAULT_CONFIG; the merge itself is not needed by any claim). -/
def mkDetector (config : AnalyticsConfig) : DetectorState :=
  { config := config, series := [] }

/-- Embedding of addDataPoint (detector.ts): create the series on first
use, push the point, and when the length exceeds `windowSize * 10` keep
only the most recent `windowSize * 10` entries via `arr.slice(-maxSize)`. -/
def addDataPoint (st : DetectorState) (point : MetricDataPoint) : DetectorState :=
  let k := seriesKeyFor point.name point.url
  let arr0 := (mapGet st.series k).getD []
  let arr := arr0 ++ [point]
  let maxSize := st.config.windowSize * 10
  let newArr := if maxSize < arr.length then jsSliceFrom arr (-(maxSize : Int)) else arr
  { st with series := mapSet st.series k newArr }

/-- Embedding of addDataPoints (detector.ts): addDataPoint one by one. -/
def addDataPoints (st : DetectorState) (points : List MetricDataPoint) : DetectorState :=
  points.foldl addDataPoint st

/-- Stable sort by timestamp, embedding the JavaScript
`[...points].sort((a, b) => a.timestamp - b.timestamp)`: each point is
inserted after all earlier points whose timestamp is not larger. -/
def insertByTimestamp (p : MetricDataPoint) : List MetricDataPoint → List MetricDataPoint
  | [] => [p]
  | q :: rest =>
      if p.timestamp < q.timestamp then p :: q :: rest
      else q :: insertByTimestamp p rest

/-- Sorted copy of a series, ascending by timestamp, ties kept in append
order (JavaScript Array.prototype.sort is stable). -/
def sortByTimestamp (points : List MetricDataPoint) : List MetricDataPoint :=
  points.foldl (fun acc p => insertByTimestamp p acc) []

/-- Result record pushed by detectAnomalies (detector.ts) for the latest
point of a series, given the z-score z computed against the baseline. -/
def mkAnomalyResult (cfg : AnalyticsConfig) (seriesKey : String)
    (latest : MetricDataPoint) (z : ℚ) : AnomalyResult :=
  { metric := seriesKey
    value := latest.value
    timestamp := latest.timestamp
    zScore := z
    isAnomaly := decide (|z| > cfg.zScoreThreshold)
    direction :=
      if z > cfg.zScoreThreshold then Direction.up
      else if z < -cfg.zScoreThreshold then Direction.down
      else Direction.none }

/-- Body of the detectAnomalies forEach callback (detector.ts) for a single
series.  The empty-series match arm is unreachable for stored series (a
series is created by appending its first point and is never truncated to
empty). -/
def anomalyForSeries (sq : ℚ → ℚ) (cfg : AnalyticsConfig) (seriesKey : String)
    (points : List MetricDataPoint) : Option AnomalyResult :=
  if points.length < cfg.minSamples then none
  else
    let sorted := sortByTimestamp points
    let values := sorted.map MetricDataPoint.value
    match sorted.getLast? with
    | none => none
    | some latest =>
        let baselineValues := jsSlice values (-(cfg.windowSize : Int) - 1) (-1)
        if baselineValues.length < cfg.minSamples then none
        else
          let baselineMean := mean baselineValues
          let baselineStdDev := stdDev sq baselineValues
          let z := zScore latest.value baselineMean baselineStdDev
          some (mkAnomalyResult cfg seriesKey latest z)

/-- Embedding of detectAnomalies (detector.ts) in state-passing form: the
method only reads the series map (it sorts a copy of each series), so it
returns the state it was called with. -/
def detectAnomaliesRun (sq : ℚ → ℚ) (st : DetectorState) :
    List AnomalyResult × DetectorState :=
  (st.series.filterMap (fun kv => anomalyForSeries sq st.config kv.1 kv.2), st)

/-- Result list of detectAnomalies (detector.ts). -/
def detectAnomalies (sq : ℚ → ℚ) (st : DetectorState) : List AnomalyResult :=
  (detectAnomaliesRun sq st).1

/-- Timestamp-sorted values of a series, as recomputed by
detectRegressions (detector.ts). -/
def regValues (points : List MetricDataPoint) : List ℚ :=
  (sortByTimestamp points).map MetricDataPoint.value

/-- Effective window size of detectRegressions (detector.ts):
`min(windowSize, floor(values.length / 2))`. -/
def regWindowSize (cfg : AnalyticsConfig) (points : List MetricDataPoint) : ℕ :=
  min cfg.windowSize ((regValues points).length / 2)

/-- Current window of detectRegressions (detector.ts): `values.slice(-windowSize)`. -/
def regCurrentWindow (cfg : AnalyticsConfig) (points : List MetricDataPoint) : List ℚ :=
  jsSliceFrom (regValues points) (-(regWindowSize cfg points : Int))

/-- Previous window of detectRegressions (detector.ts):
`values.slice(-windowSize * 2, -windowSize)`. -/
def regPreviousWindow (cfg : AnalyticsConfig) (points : List MetricDataPoint) : List ℚ :=
  jsSlice (regValues points) (-(regWindowSize cfg points : Int) * 2)
    (-(regWindowSize cfg points : Int))

/-- Fixed-point rendering of a rational with one decimal digit, embedding
Number.prototype.toFixed(1) (ties round toward positive infinity). -/
def ratToFixed1 (q : ℚ) : String :=
  let n : Int := ⌊q * 10 + 1/2⌋
  (if n < 0 then "-" else "") ++ toString (n.natAbs / 10) ++ "." ++ toString (n.natAbs % 10)

/-- Alert message built by detectRegressions (detector.ts). -/
def regressionMessage (metricName : String) (percentageChange prevMean currMean : ℚ)
    (url : Option String) : String :=
  metricName ++ " degraded by " ++ ratToFixed1 (percentageChange * 100) ++ "% (" ++
    ratToFixed1 prevMean ++ " → " ++ ratToFixed1 currMean ++ ")" ++
    (match url with
     | some u => " on " ++ u
     | none => "")

/-- Body of the detectRegressions forEach callback (detector.ts) for a
single series: guards for sample count, previous-window size, zero previous
mean, the percentage-change gate and the fixed 1.5 z-score gate, then the
alert record with severity falling back to getSeverity (called without the
configured custom thresholds). -/
def regressionForSeries (sq : ℚ → ℚ) (cfg : AnalyticsConfig) (now : ℚ)
    (seriesKey : String) (points : List MetricDataPoint) : Option RegressionAlert :=
  if points.length < cfg.minSamples * 2 then none
  else if (regPreviousWindow cfg points).length < cfg.minSamples then none
  else
    let prevMean := mean (regPreviousWindow cfg points)
    let currMean := mean (regCurrentWindow cfg points)
    if prevMean = 0 then none
    else
      let absoluteChange := currMean - prevMean
      let percentageChange := absoluteChange / prevMean
      if percentageChange < cfg.regressionPercentThreshold then none
      else
        let z := zScore currMean prevMean (stdDev sq (regPreviousWindow cfg points))
        if |z| < 3/2 then none
        else
          let metricName := metricNameOfKey seriesKey
          some { metric := metricName
                 url := urlOfKey seriesKey
                 previousValue := prevMean
                 currentValue := currMean
                 absoluteChange := absoluteChange
                 percentageChange := percentageChange
                 zScore := z
                 severity :=
                   if percentageChange > 1/2 then Severity.critical
                   else if percentageChange > 3/10 then Severity.warning
                   else getSeverity metricName currMean (fun _ => none)
                 detectedAt := now
                 windowSize := regWindowSize cfg points
                 message := regressionMessage metricName percentageChange prevMean
                   currMean (urlOfKey seriesKey) }

/-- Embedding of detectRegressions (detector.ts) in state-passing form;
`now` embeds the Date.now() call stamped into each alert.  The method only
reads the series map, so it returns the state it was called with. -/
def detectRegressionsRun (sq : ℚ → ℚ) (now : ℚ) (st : DetectorState) :
    List RegressionAlert × DetectorState :=
  (st.series.filterMap (fun kv => regressionForSeries sq st.config now kv.1 kv.2), st)

/-- Result list of detectRegressions (detector.ts). -/
def detectRegressions (sq : ℚ → ℚ) (now : ℚ) (st : DetectorState) : List RegressionAlert :=
  (detectRegressionsRun sq now st).1

/-- Embedding of analyzeTrend (detector.ts) in state-passing form: null when
the series is missing or shorter than minSamples, otherwise the linearTrend
result, the ewma series with alpha 0.3, and the means of the trailing and
leading `min(windowSize, floor(n/2))` sorted values. -/
def analyzeTrendRun (st : DetectorState) (metricName : String) (url : Option String) :
    Option TrendSummary × DetectorState :=
  (match mapGet st.series (seriesKeyFor metricName url) with
   | none => none
   | some points =>
       if points.length < st.config.minSamples then none
       else
         let values := (sortByTimestamp points).map MetricDataPoint.value
         let trend := linearTrend values
         let w := min st.config.windowSize (values.length / 2)
         some { direction := trend.direction
                slope := trend.slope
                ewmaValues := ewma values (3/10)
                recentMean := mean (jsSliceFrom values (-(w : Int)))
                baselineMean := mean (jsSlice values 0 (w : Int)) },
   st)

/-- Result of analyzeTrend (detector.ts). -/
def analyzeTrend (st : DetectorState) (metricName : String) (url : Option String) :
    Option TrendSummary :=
  (analyzeTrendRun st metricName url).1

/-- Embedding of clear (detector.ts): with a metric name, delete that one
series; with none, clear the whole map.  (JavaScript truthiness also treats
an empty-string name as absent; the claims never exercise that case.) -/
def clear (st : DetectorState) (metricName : Option String) (url : Option String) :
    DetectorState :=
  match metricName with
  | some nm => { st with series := mapDelete st.series (seriesKeyFor nm url) }
  | none => { st with series := [] }

/-- Embedding of getSeriesCount (detector.ts). -/
def getSeriesCount (st : DetectorState) : ℕ :=
  st.series.length

/-- Embedding of getDataPointCount (detector.ts):
`this.series.get(key)?.length || 0`. -/
def getDataPointCount (st : DetectorState) (metricName : String) (url : Option String) : ℕ :=
  ((mapGet st.series (seriesKeyFor metricName url)).getD []).length

/-! ## Concrete fixtures used by counterexamples and witnesses -/

/-- Builds a series for one metric: the i-th value gets timestamp i. -/
def seriesOf (nm : String) (vals : List ℚ) : List MetricDataPoint :=
  vals.enum.map (fun iv => { name := nm, value := iv.2, timestamp := (iv.1 : ℚ), url := none })

/-- Ten points with values 1..10 (timestamps 0..9). -/
def ptsTen : List MetricDataPoint :=
  seriesOf "m" [1, 2, 3, 4, 5, 6, 7, 8, 9, 10]

/-- Detector holding ptsTen under the default configuration. -/
def stTen : DetectorState :=
  addDataPoints (mkDetector defaultConfig) ptsTen

/-- Default configuration with windowSize 10. -/
def cfg10 : AnalyticsConfig :=
  { defaultConfig with windowSize := 10 }

/-- Two hundred points with values and timestamps 0..199. -/
def pts200 : List MetricDataPoint :=
  (List.range 200).map
    (fun i => { name := "m", value := (i : ℚ), timestamp := (i : ℚ), url := none })

/-- Square-root function used by concrete regression fixtures: correct at
the two arguments the fixtures reach (variance 4 and variance 0). -/
def sq4 : ℚ → ℚ :=
  fun q => if q = 4 then 2 else 0

/-- Square-root function that is zero everywhere (correct at 0, which is
the only argument the fixtures using it reach). -/
def sqZero : ℚ → ℚ :=
  fun _ => 0

/-- Baseline of ten values with mean 1000 and sample variance 4. -/
def baseVals : List ℚ :=
  [1003, 997, 1003, 997, 1000, 1000, 1000, 1000, 1000, 1000]

/-- Twenty points: the baseline followed by ten values at 1500 (a 50%
degradation with z-score 250). -/
def ptsReg : List MetricDataPoint :=
  seriesOf "LCP" (baseVals ++ [1500, 1500, 1500, 1500, 1500, 1500, 1500, 1500, 1500, 1500])

/-- Detector holding ptsReg under the default configuration. -/
def stReg : DetectorState :=
  addDataPoints (mkDetector defaultConfig) ptsReg

/-- Degenerate configuration with a negative z-score threshold. -/
def cfgNegTh : AnalyticsConfig :=
  { defaultConfig with zScoreThreshold := -2, minSamples := 1 }

/-- Detector with the negative threshold holding a flat two-point series. -/
def stNegTh : DetectorState :=
  addDataPoints (mkDetector cfgNegTh) (seriesOf "m" [5, 5])

/-- The anomaly result the stNegTh fixture produces: zero variance gives a
z-score of 0, which exceeds the negative threshold, so the direction is up
even though the z-score is also below the negated threshold. -/
def anomNeg : AnomalyResult :=
  { metric := "m"
    value := 5
    timestamp := 1
    zScore := 0
    isAnomaly := true
    direction := Direction.up }

/-- Eleven points: a constant baseline of ten 1000s and a last value 1200. -/
def ptsFlat : List MetricDataPoint :=
  seriesOf "m" [1000, 1000, 1000, 1000, 1000, 1000, 1000, 1000, 1000, 1000, 1200]

/-- Detector holding ptsFlat under the default configuration. -/
def stFlat : DetectorState :=
  addDataPoints (mkDetector defaultConfig) ptsFlat

/-- The anomaly result the ptsFlat fixture produces: the constant baseline
has zero variance, so the z-score is 0 and nothing is flagged. -/
def anomFlat : AnomalyResult :=
  { metric := "m"
    value := 1200
    timestamp := 10
    zScore := 0
    isAnomaly := false
    direction := Direction.none }

/-- Twenty points whose first ten timestamp-sorted values alternate 5 and
-5, so the previous window of detectRegressions has mean exactly 0. -/
def ptsZeroPrev : List MetricDataPoint :=
  seriesOf "m" [5, -5, 5, -5, 5, -5, 5, -5, 5, -5,
    100, 100, 100, 100, 100, 100, 100, 100, 100, 100]

/-- Twenty points: the baseline followed by ten values at 1250 (a mild 25%
degradation whose severity falls through to the threshold classifier). -/
def ptsMild : List MetricDataPoint :=
  seriesOf "LCP" (baseVals ++ [1250, 1250, 1250, 1250, 1250, 1250, 1250, 1250, 1250, 1250])

/-- Detector holding ptsMild under the default configuration. -/
def stMild : DetectorState :=
  addDataPoints (mkDetector defaultConfig) ptsMild

/-- The alert produced from the ptsMild fixture at wall-clock time 0. -/
def alertMild : RegressionAlert :=
  { metric := "LCP"
    url := none
    previousValue := 1000
    currentValue := 1250
    absoluteChange := 250
    percentageChange := 1/4
    zScore := 125
    severity := Severity.info
    detectedAt := 0
    windowSize := 10
    message := "LCP degraded by 25.0% (1000.0 → 1250.0)" }

/-! ## Helper lemmas -/

theorem insertByTimestamp_length (p : MetricDataPoint) (l : List MetricDataPoint) :
    (insertByTimestamp p l).length = l.length + 1 := by
  induction l with
  | nil => rfl
  | cons q rest ih =>
      simp only [insertByTimestamp]
      split
      · simp
      · simp [ih]

theorem sortByTimestamp_length (l : List MetricDataPoint) :
    (sortByTimestamp l).length = l.length := by
  have h : ∀ acc : List MetricDataPoint,
      (l.foldl (fun acc p => insertByTimestamp p acc) acc).length = acc.length + l.length := by
    induction l with
    | nil => intro acc; simp
    | cons p rest ih =>
        intro acc
        simp only [List.foldl_cons, List.length_cons]
        rw [ih, insertByTimestamp_length]
        omega
  simpa [sortByTimestamp] using h []

theorem regValues_length (points : List MetricDataPoint) :
    (regValues points).length = points.length := by
  simp [regValues, sortByTimestamp_length]

theorem mapSet_mem {m : List (String × List MetricDataPoint)} {k : String}
    {v : List MetricDataPoint} {kv : String × List MetricDataPoint}
    (h : kv ∈ mapSet m k v) : kv = (k, v) ∨ kv ∈ m := by
  induction m with
  | nil => simpa [mapSet] using h
  | cons hd tl ih =>
      simp only [mapSet] at h
      split at h
      · rcases List.mem_cons.mp h with h1 | h1
        · exact Or.inl h1
        · exact Or.inr (List.mem_cons.mpr (Or.inr h1))
      · rcases List.mem_cons.mp h with h1 | h1
        · exact Or.inr (List.mem_cons.mpr (Or.inl h1))
        · rcases ih h1 with h2 | h2
          · exact Or.inl h2
          · exact Or.inr (List.mem_cons.mpr (Or.inr h2))

theorem jsSliceFrom_neg_length_le {α : Type} (l : List α) (m : ℕ) (hm : 1 ≤ m) :
    (jsSliceFrom l (-(m : Int))).length ≤ m := by
  simp only [jsSliceFrom, jsSlice, List.length_drop, List.length_take]
  split_ifs <;> omega

/-- Invariant claimed for the series store: every stored series is bounded
by windowSize * 10. -/
def seriesBounded (st : DetectorState) : Prop :=
  ∀ kv ∈ st.series, kv.2.length ≤ st.config.windowSize * 10

theorem truncIf_length_le (arr : List MetricDataPoint) (m : ℕ) (hm : 1 ≤ m) :
    (if m < arr.length then jsSliceFrom arr (-(m : Int)) else arr).length ≤ m := by
  split_ifs with h
  · exact jsSliceFrom_neg_length_le arr m hm
  · omega

theorem addDataPoint_bounded (st : DetectorState) (p : MetricDataPoint)
    (hw : 1 ≤ st.config.windowSize) (hinv : seriesBounded st) :
    seriesBounded (addDataPoint st p) := by
  intro kv hkv
  show kv.2.length ≤ st.config.windowSize * 10
  rcases mapSet_mem hkv with h | h
  · rw [h]
    exact truncIf_length_le _ _ (by omega)
  · exact hinv kv h

theorem addDataPoints_bounded (ps : List MetricDataPoint) (st : DetectorState)
    (hw : 1 ≤ st.config.windowSize) (hinv : seriesBounded st) :
    seriesBounded (addDataPoints st ps) := by
  induction ps generalizing st with
  | nil => exact hinv
  | cons p rest ih =>
      exact ih (addDataPoint st p) hw (addDataPoint_bounded st p hw hinv)

/-! ## Claim C1 -/

/-- C1 counterexample: with ten points of values 1..10 under the default
configuration (effective window 5), analyzeTrend returns recentMean 8, not
the mean 3 of the first five timestamp-sorted values, so the claimed
pairing (recentMean over the first slice) is false at this input. -/
theorem analyzeTrend_first_pairing_cex :
    (analyzeTrend stTen "m" Option.none).map TrendSummary.recentMean ≠
      some (mean (jsSlice (regValues ptsTen) 0
        ((min defaultConfig.windowSize (ptsTen.length / 2) : ℕ) : Int))) := by
  decide

/-- C1 (amended): for every series of at least minSamples points,
analyzeTrend returns a non-null summary whose recentMean is the mean of the
LAST min(windowSize, floor(n/2)) timestamp-sorted values and whose
baselineMean is the mean of the FIRST min(windowSize, floor(n/2))
timestamp-sorted values (the spec's pairing, reversed). -/
theorem analyzeTrend_window_means (st : DetectorState) (name : String)
    (url : Option String) (points : List MetricDataPoint)
    (hget : mapGet st.series (seriesKeyFor name url) = some points)
    (hlen : st.config.minSamples ≤ points.length) :
    (analyzeTrend st name url).map (fun r => (r.recentMean, r.baselineMean)) =
      some
        (mean (jsSliceFrom (regValues points)
          (-((min st.config.windowSize (points.length / 2) : ℕ) : Int))),
         mean (jsSlice (regValues points) 0
          ((min st.config.windowSize (points.length / 2) : ℕ) : Int))) := by
  unfold analyzeTrend analyzeTrendRun
  rw [hget]
  simp only [List.length_map, sortByTimestamp_length, if_neg (not_lt.mpr hlen)]
  rfl

/-- C1 witness: the amended theorem applied to the ten-point fixture. -/
theorem analyzeTrend_window_means_witness :
    mapGet stTen.series (seriesKeyFor "m" Option.none) = some ptsTen ∧
    (analyzeTrend stTen "m" Option.none).map (fun r => (r.recentMean, r.baselineMean)) =
      some
        (mean (jsSliceFrom (regValues ptsTen)
          (-((min stTen.config.windowSize (ptsTen.length / 2) : ℕ) : Int))),
         mean (jsSlice (regValues ptsTen) 0
          ((min stTen.config.windowSize (ptsTen.length / 2) : ℕ) : Int))) :=
  ⟨by decide, analyzeTrend_window_means stTen "m" Option.none ptsTen (by decide) (by decide)⟩

/-! ## Claim C2 -/

set_option maxRecDepth 40000 in
/-- C2: after any sequence of appends under a configuration with
windowSize at least 1, every stored series has length at most
windowSize * 10; and appending the concrete 200 points with windowSize 10
leaves exactly the 100 most recently appended points stored. -/
theorem series_store_bounded :
    (∀ (cfg : AnalyticsConfig) (ps : List MetricDataPoint), 1 ≤ cfg.windowSize →
      seriesBounded (addDataPoints (mkDetector cfg) ps))
    ∧ mapGet (addDataPoints (mkDetector cfg10) pts200).series "m" =
        some (pts200.drop 100) := by
  constructor
  · intro cfg ps hw
    refine addDataPoints_bounded ps (mkDetector cfg) hw ?_
    intro kv hkv
    simp [mkDetector] at hkv
  · decide

/-- C2 witness: the bound applied to a concrete one-point append under
windowSize 10. -/
theorem series_store_bounded_witness :
    1 ≤ cfg10.windowSize ∧
    ("m", [{ name := "m", value := 7, timestamp := 0, url := none }]) ∈
      (addDataPoints (mkDetector cfg10)
        [{ name := "m", value := 7, timestamp := 0, url := none }]).series ∧
    ([({ name := "m", value := 7, timestamp := 0, url := none } : MetricDataPoint)]).length ≤
      (addDataPoints (mkDetector cfg10)
        [{ name := "m", value := 7, timestamp := 0, url := none }]).config.windowSize * 10 :=
  ⟨by decide, by decide,
    series_store_bounded.1 cfg10
      [{ name := "m", value := 7, timestamp := 0, url := none }] (by decide)
      ("m", [{ name := "m", value := 7, timestamp := 0, url := none }]) (by decide)⟩

/-! ## Claim C3 -/

/-- Erases the only time-dependent field of a regression alert. -/
def stripDetectedAt (a : RegressionAlert) : RegressionAlert :=
  { a with detectedAt := 0 }

theorem regressionForSeries_strip (sq : ℚ → ℚ) (cfg : AnalyticsConfig)
    (now₁ now₂ : ℚ) (k : String) (pts : List MetricDataPoint) :
    (regressionForSeries sq cfg now₁ k pts).map stripDetectedAt =
      (regressionForSeries sq cfg now₂ k pts).map stripDetectedAt := by
  simp only [regressionForSeries]
  split_ifs <;> rfl

theorem regressionForSeries_detectedAt (sq : ℚ → ℚ) (cfg : AnalyticsConfig)
    (now : ℚ) (k : String) (pts : List MetricDataPoint) (a : RegressionAlert)
    (h : regressionForSeries sq cfg now k pts = some a) : a.detectedAt = now := by
  simp only [regressionForSeries] at h
  split_ifs at h <;> try exact Option.noConfusion h
  all_goals obtain rfl := Option.some.inj h
  all_goals rfl

/-- Alert produced from the ptsReg fixture by a detectRegressions call at
wall-clock time now. -/
def alertReg (now : ℚ) : RegressionAlert :=
  { metric := "LCP"
    url := none
    previousValue := 1000
    currentValue := 1500
    absoluteChange := 500
    percentageChange := 1/2
    zScore := 250
    severity := Severity.warning
    detectedAt := now
    windowSize := 10
    message := "LCP degraded by 50.0% (1000.0 → 1500.0)" }

/-- C3 counterexample: on a detector holding the ptsReg fixture, two
detectRegressions calls at wall-clock times 0 and 1 (with no intervening
writes) return different results — the detectedAt field of the alert
differs — so field-for-field idempotence fails on the code. -/
theorem detectRegressions_calls_differ :
    detectRegressions sq4 0 stReg ≠ detectRegressions sq4 1 stReg := by
  decide

/-- C3 (amended): repeated calls with no intervening writes agree except
for the detectedAt field of regression alerts, which records each call's
own wall clock: erasing detectedAt makes detectRegressions results at any
two times equal, and every returned alert's detectedAt equals the call
time.  (detectAnomalies and analyzeTrend take no time input, so repeated
calls on the same state are definitionally identical.) -/
theorem detect_repeat_identical_up_to_detectedAt (sq : ℚ → ℚ) (st : DetectorState)
    (now₁ now₂ : ℚ) :
    (detectRegressions sq now₁ st).map stripDetectedAt =
      (detectRegressions sq now₂ st).map stripDetectedAt
    ∧ ∀ a ∈ detectRegressions sq now₁ st, a.detectedAt = now₁ := by
  constructor
  · simp only [detectRegressions, detectRegressionsRun, List.map_filterMap]
    apply List.filterMap_congr
    intro kv _
    exact regressionForSeries_strip sq st.config now₁ now₂ kv.1 kv.2
  · intro a ha
    simp only [detectRegressions, detectRegressionsRun, List.mem_filterMap] at ha
    obtain ⟨kv, _, h⟩ := ha
    exact regressionForSeries_detectedAt sq st.config now₁ kv.1 kv.2 a h

/-- C3 witness: the amended theorem applied to the ptsReg fixture at times
5 and 7, with the concrete alert as the member. -/
theorem detect_repeat_identical_up_to_detectedAt_witness :
    ((detectRegressions sq4 5 stReg).map stripDetectedAt =
      (detectRegressions sq4 7 stReg).map stripDetectedAt)
    ∧ alertReg 5 ∈ detectRegressions sq4 5 stReg
    ∧ (alertReg 5).detectedAt = 5 :=
  ⟨(detect_repeat_identical_up_to_detectedAt sq4 stReg 5 7).1, by decide,
    (detect_repeat_identical_up_to_detectedAt sq4 stReg 5 7).2 (alertReg 5) (by decide)⟩

/-! ## Claim C4 -/

theorem regressionForSeries_gates (sq : ℚ → ℚ) (cfg : AnalyticsConfig)
    (now : ℚ) (k : String) (pts : List MetricDataPoint) (a : RegressionAlert)
    (h : regressionForSeries sq cfg now k pts = some a) :
    cfg.regressionPercentThreshold ≤ a.percentageChange
    ∧ a.percentageChange = (a.currentValue - a.previousValue) / a.previousValue
    ∧ 3/2 ≤ |a.zScore| := by
  simp only [regressionForSeries] at h
  split_ifs at h <;> try exact Option.noConfusion h
  all_goals obtain rfl := Option.some.inj h
  all_goals exact ⟨not_lt.mp (by assumption), rfl, not_lt.mp (by assumption)⟩

theorem regressionForSeries_none_of_gate_failure (sq : ℚ → ℚ) (cfg : AnalyticsConfig)
    (now : ℚ) (k : String) (pts : List MetricDataPoint)
    (hfail :
      (mean (regCurrentWindow cfg pts) - mean (regPreviousWindow cfg pts)) /
          mean (regPreviousWindow cfg pts) < cfg.regressionPercentThreshold
      ∨ |zScore (mean (regCurrentWindow cfg pts)) (mean (regPreviousWindow cfg pts))
          (stdDev sq (regPreviousWindow cfg pts))| < 3/2) :
    regressionForSeries sq cfg now k pts = none := by
  simp only [regressionForSeries]
  split_ifs <;> try rfl
  all_goals rcases hfail with hf | hf <;> exact absurd hf (by assumption)

/-- C4: every alert returned by detectRegressions passes both gates — its
percentageChange equals (currentMean - previousMean) / previousMean and is
at least the configured regressionPercentThreshold, and its z-score has
absolute value at least the fixed constant 1.5; a series failing either
gate yields no alert, and the configured zScoreThreshold plays no role
(changing it leaves the result unchanged). -/
theorem detectRegressions_gates (sq : ℚ → ℚ) (now : ℚ) (st : DetectorState) :
    (∀ a ∈ detectRegressions sq now st,
      st.config.regressionPercentThreshold ≤ a.percentageChange
      ∧ a.percentageChange = (a.currentValue - a.previousValue) / a.previousValue
      ∧ 3/2 ≤ |a.zScore|)
    ∧ (∀ cfg : AnalyticsConfig, ∀ k : String, ∀ pts : List MetricDataPoint,
        ((mean (regCurrentWindow cfg pts) - mean (regPreviousWindow cfg pts)) /
            mean (regPreviousWindow cfg pts) < cfg.regressionPercentThreshold
          ∨ |zScore (mean (regCurrentWindow cfg pts)) (mean (regPreviousWindow cfg pts))
              (stdDev sq (regPreviousWindow cfg pts))| < 3/2) →
        regressionForSeries sq cfg now k pts = none)
    ∧ (∀ t : ℚ, detectRegressions sq now
        { st with config := { st.config with zScoreThreshold := t } } =
        detectRegressions sq now st) := by
  refine ⟨?_, ?_, ?_⟩
  · intro a ha
    simp only [detectRegressions, detectRegressionsRun, List.mem_filterMap] at ha
    obtain ⟨kv, _, h⟩ := ha
    exact regressionForSeries_gates sq st.config now kv.1 kv.2 a h
  · intro cfg k pts hfail
    exact regressionForSeries_none_of_gate_failure sq cfg now k pts hfail
  · intro t
    rfl

/-- C4 witness: the gates applied to the concrete alert of the ptsReg
fixture, where the configured threshold is 0.2, the percentage change is
0.5 and the z-score is 250. -/
theorem detectRegressions_gates_witness :
    alertReg 0 ∈ detectRegressions sq4 0 stReg
    ∧ (stReg.config.regressionPercentThreshold ≤ (alertReg 0).percentageChange
      ∧ (alertReg 0).percentageChange =
          ((alertReg 0).currentValue - (alertReg 0).previousValue) / (alertReg 0).previousValue
      ∧ 3/2 ≤ |(alertReg 0).zScore|) :=
  ⟨by decide, (detectRegressions_gates sq4 0 stReg).1 (alertReg 0) (by decide)⟩

/-! ## Claim C5 -/

theorem anomalyForSeries_shape (sq : ℚ → ℚ) (cfg : AnalyticsConfig) (k : String)
    (pts : List MetricDataPoint) (r : AnomalyResult)
    (h : anomalyForSeries sq cfg k pts = some r) :
    ∃ latest z, r = mkAnomalyResult cfg k latest z := by
  simp only [anomalyForSeries] at h
  split at h
  · exact Option.noConfusion h
  · split at h
    · exact Option.noConfusion h
    · split at h
      · exact Option.noConfusion h
      · exact ⟨_, _, (Option.some.inj h).symm⟩

theorem mkAnomalyResult_spec (cfg : AnalyticsConfig) (k : String)
    (latest : MetricDataPoint) (z : ℚ) :
    (mkAnomalyResult cfg k latest z).isAnomaly =
        decide (|(mkAnomalyResult cfg k latest z).zScore| > cfg.zScoreThreshold)
    ∧ ((mkAnomalyResult cfg k latest z).direction = Direction.up ↔
        (mkAnomalyResult cfg k latest z).zScore > cfg.zScoreThreshold)
    ∧ (0 ≤ cfg.zScoreThreshold →
        ((mkAnomalyResult cfg k latest z).direction = Direction.down ↔
          (mkAnomalyResult cfg k latest z).zScore < -cfg.zScoreThreshold))
    ∧ ((mkAnomalyResult cfg k latest z).direction = Direction.none ↔
        (¬ (mkAnomalyResult cfg k latest z).zScore > cfg.zScoreThreshold
         ∧ ¬ (mkAnomalyResult cfg k latest z).zScore < -cfg.zScoreThreshold))
    ∧ ((mkAnomalyResult cfg k latest z).isAnomaly = true →
        (mkAnomalyResult cfg k latest z).direction ≠ Direction.none) := by
  refine ⟨rfl, ?_, ?_, ?_, ?_⟩
  · show (if z > cfg.zScoreThreshold then Direction.up
        else if z < -cfg.zScoreThreshold then Direction.down
        else Direction.none) = Direction.up ↔ z > cfg.zScoreThreshold
    split_ifs with h1 h2 <;> simp [h1]
  · intro hth
    show (if z > cfg.zScoreThreshold then Direction.up
        else if z < -cfg.zScoreThreshold then Direction.down
        else Direction.none) = Direction.down ↔ z < -cfg.zScoreThreshold
    split_ifs with h1 h2
    · have hnd : ¬ z < -cfg.zScoreThreshold := by linarith
      simp [hnd]
    · simp [h2]
    · simp [h2]
  · show (if z > cfg.zScoreThreshold then Direction.up
        else if z < -cfg.zScoreThreshold then Direction.down
        else Direction.none) = Direction.none ↔
        (¬ z > cfg.zScoreThreshold ∧ ¬ z < -cfg.zScoreThreshold)
    split_ifs with h1 h2
    · simp [h1]
    · simp [h1, h2]
    · simp [h1, h2]
  · intro hA
    have habs : |z| > cfg.zScoreThreshold := of_decide_eq_true hA
    show (if z > cfg.zScoreThreshold then Direction.up
        else if z < -cfg.zScoreThreshold then Direction.down
        else Direction.none) ≠ Direction.none
    split_ifs with h1 h2
    · simp
    · simp
    · exfalso
      have hle : |z| ≤ cfg.zScoreThreshold := abs_le.mpr ⟨by linarith, by linarith⟩
      linarith

/-- C5 counterexample: with zScoreThreshold configured to -2 and minSamples
1, a flat two-point series yields a returned result with zScore 0 and
direction up; since 0 < -(-2) = 2 its zScore is below the negated
threshold, yet its direction is not down, so the claimed biconditional
"direction = down iff zScore < -zScoreThreshold" is false at this state and
configuration. -/
theorem detectAnomalies_down_iff_cex :
    anomNeg ∈ detectAnomalies sqZero stNegTh
    ∧ anomNeg.zScore < -stNegTh.config.zScoreThreshold
    ∧ anomNeg.direction ≠ Direction.down := by
  decide

/-- C5 (amended): every result of detectAnomalies has isAnomaly equal to
the test |zScore| > zScoreThreshold and direction up exactly when
zScore > zScoreThreshold; the biconditional "direction = down iff
zScore < -zScoreThreshold" holds whenever the configured zScoreThreshold is
nonnegative (for negative thresholds the up branch fires first); direction
is none exactly when neither comparison fires, and in every configuration
no result combines isAnomaly = true with direction = none. -/
theorem detectAnomalies_direction_spec (sq : ℚ → ℚ) (st : DetectorState) :
    ∀ r ∈ detectAnomalies sq st,
      r.isAnomaly = decide (|r.zScore| > st.config.zScoreThreshold)
      ∧ (r.direction = Direction.up ↔ r.zScore > st.config.zScoreThreshold)
      ∧ (0 ≤ st.config.zScoreThreshold →
          (r.direction = Direction.down ↔ r.zScore < -st.config.zScoreThreshold))
      ∧ (r.direction = Direction.none ↔
          (¬ r.zScore > st.config.zScoreThreshold
           ∧ ¬ r.zScore < -st.config.zScoreThreshold))
      ∧ (r.isAnomaly = true → r.direction ≠ Direction.none) := by
  intro r hr
  simp only [detectAnomalies, detectAnomaliesRun, List.mem_filterMap] at hr
  obtain ⟨kv, _, h⟩ := hr
  obtain ⟨latest, z, rfl⟩ := anomalyForSeries_shape sq st.config kv.1 kv.2 r h
  exact mkAnomalyResult_spec st.config kv.1 latest z

/-- C5 witness: the amended properties applied to the concrete result of
the flat fixture (z-score 0 under the default threshold 2.5). -/
theorem detectAnomalies_direction_spec_witness :
    anomFlat ∈ detectAnomalies sqZero stFlat
    ∧ (anomFlat.direction = Direction.up ↔
        anomFlat.zScore > stFlat.config.zScoreThreshold)
    ∧ (anomFlat.isAnomaly = true → anomFlat.direction ≠ Direction.none) :=
  ⟨by decide,
    (detectAnomalies_direction_spec sqZero stFlat anomFlat (by decide)).2.1,
    (detectAnomalies_direction_spec sqZero stFlat anomFlat (by decide)).2.2.2.2⟩

/-! ## Claim C6 -/

theorem lsSlope_nil : lsSlope [] = 0 := by decide

theorem lsSlope_singleton (x : ℚ) : lsSlope [x] = 0 := by
  simp [lsSlope]

theorem normalizedSlope_nil : normalizedSlope [] = 0 := by decide

theorem normalizedSlope_singleton (x : ℚ) : normalizedSlope [x] = 0 := by
  simp only [normalizedSlope, lsSlope_singleton]
  split_ifs <;> simp

/-- C6 counterexample: the list [-300, -100] has least-squares slope 200 > 0
and normalized slope -1 (mean -200), so it is outside the stable band, yet
linearTrend reports improving rather than the degrading direction the claim
requires for every positive slope. -/
theorem linearTrend_positive_slope_cex :
    1/200 ≤ |normalizedSlope [-300, -100]|
    ∧ 0 < (linearTrend [-300, -100]).slope
    ∧ (linearTrend [-300, -100]).direction ≠ TrendDirection.degrading := by
  decide

/-- C6 (amended): outside the stable band |normalizedSlope| < 0.005, the
direction is decided by the SIGN OF THE NORMALIZED SLOPE slope/mean (not of
the raw slope): degrading iff it is positive, improving iff negative — which
agrees with the raw slope's sign whenever the mean is positive; inside the
band the direction is stable; and linearTrend([100,200,300,400,500]) is
degrading with positive slope. -/
theorem linearTrend_direction_spec :
    (∀ values : List ℚ, 1/200 ≤ |normalizedSlope values| →
      (((linearTrend values).direction = TrendDirection.degrading ↔
          0 < normalizedSlope values)
       ∧ ((linearTrend values).direction = TrendDirection.improving ↔
          normalizedSlope values < 0)
       ∧ (0 < mean values →
          ((linearTrend values).direction = TrendDirection.degrading ↔
            0 < (linearTrend values).slope))))
    ∧ (∀ values : List ℚ, |normalizedSlope values| < 1/200 →
        (linearTrend values).direction = TrendDirection.stable)
    ∧ ((linearTrend [100, 200, 300, 400, 500]).direction = TrendDirection.degrading
       ∧ 0 < (linearTrend [100, 200, 300, 400, 500]).slope) := by
  refine ⟨?_, ?_, by decide⟩
  · intro values h
    rcases values with _ | ⟨x, _ | ⟨y, rest⟩⟩
    · rw [normalizedSlope_nil] at h
      norm_num at h
    · rw [normalizedSlope_singleton] at h
      norm_num at h
    · have hlen : ¬ (x :: y :: rest).length < 2 := by
        simp [List.length_cons]
      have hband : ¬ |normalizedSlope (x :: y :: rest)| < 1/200 := not_lt.mpr h
      simp only [linearTrend, if_neg hlen, if_neg hband]
      refine ⟨?_, ?_, ?_⟩
      · split_ifs with h1 <;> simp [h1]
      · split_ifs with h1
        · have : ¬ normalizedSlope (x :: y :: rest) < 0 := by linarith
          simp [this]
        · have hne : normalizedSlope (x :: y :: rest) ≠ 0 := by
            intro h0
            rw [h0] at h
            norm_num at h
          have : normalizedSlope (x :: y :: rest) < 0 :=
            lt_of_le_of_ne (not_lt.mp h1) hne
          simp [this]
      · intro hmean
        have hmne : mean (x :: y :: rest) ≠ 0 := ne_of_gt hmean
        have hns : normalizedSlope (x :: y :: rest) =
            lsSlope (x :: y :: rest) / mean (x :: y :: rest) := by
          simp [normalizedSlope, hmne]
        rw [hns]
        constructor
        · intro hdir
          split_ifs at hdir with h1
          rcases div_pos_iff.mp h1 with ⟨ha, _⟩ | ⟨_, hb⟩
          · exact ha
          · linarith
        · intro hslope
          have hpos : lsSlope (x :: y :: rest) / mean (x :: y :: rest) > 0 :=
            div_pos hslope hmean
          simp [hpos]
  · intro values h
    rcases values with _ | ⟨x, _ | ⟨y, rest⟩⟩
    · rfl
    · rfl
    · have hlen : ¬ (x :: y :: rest).length < 2 := by
        simp [List.length_cons]
      simp only [linearTrend, if_neg hlen, if_pos h]

/-- C6 witness: the amended direction rule applied to the concrete list
[100, 200, 300, 400, 500]. -/
theorem linearTrend_direction_spec_witness :
    1/200 ≤ |normalizedSlope [100, 200, 300, 400, 500]|
    ∧ ((linearTrend [100, 200, 300, 400, 500]).direction = TrendDirection.degrading ↔
        0 < normalizedSlope [100, 200, 300, 400, 500]) :=
  ⟨by decide, (linearTrend_direction_spec.1 [100, 200, 300, 400, 500] (by decide)).1⟩

/-! ## Claim C7 -/

/-- C7: getSeverity is critical exactly when the value over the
needsImprovement boundary exceeds 1.5, warning exactly when that ratio is
in (1, 1.5], and info exactly when it is at most 1, the boundary coming
from the caller override or the built-in table; a name absent from both
maps always gives info. -/
theorem getSeverity_spec (name : String) (value : ℚ)
    (custom : String → Option MetricThresholds) :
    (∀ t : MetricThresholds, lookupThresholds custom name = some t →
      ((getSeverity name value custom = Severity.critical ↔
          3/2 < value / t.needsImprovement)
       ∧ (getSeverity name value custom = Severity.warning ↔
          (1 < value / t.needsImprovement ∧ value / t.needsImprovement ≤ 3/2))
       ∧ (getSeverity name value custom = Severity.info ↔
          value / t.needsImprovement ≤ 1)))
    ∧ (lookupThresholds custom name = none →
        getSeverity name value custom = Severity.info) := by
  constructor
  · intro t ht
    simp only [getSeverity, ht]
    split_ifs with h1 h2
    · have hc1 : ¬ value / t.needsImprovement ≤ 3/2 := not_le.mpr h1
      have hc2 : ¬ value / t.needsImprovement ≤ 1 := by
        rw [not_le]
        linarith
      exact ⟨by simp [h1], by simp [hc1], by simp [hc2]⟩
    · have hc1 : ¬ value / t.needsImprovement ≤ 1 := not_le.mpr h2
      exact ⟨by simp [h1], by simp [h2, not_lt.mp h1], by simp [hc1]⟩
    · exact ⟨by simp [h1], by simp [h2], by simp [not_lt.mp h2]⟩
  · intro hnone
    simp [getSeverity, hnone]

/-- C7 witness: the classification applied to the built-in LCP boundary
4000 at value 10000 (ratio 2.5, critical) with no caller override. -/
theorem getSeverity_spec_witness :
    lookupThresholds (fun _ => Option.none) "LCP" =
      some { good := 2500, needsImprovement := 4000 }
    ∧ (getSeverity "LCP" 10000 (fun _ => Option.none) = Severity.critical ↔
        3/2 < (10000 : ℚ) / (4000 : ℚ)) :=
  ⟨by decide,
    ((getSeverity_spec "LCP" 10000 (fun _ => Option.none)).1
      { good := 2500, needsImprovement := 4000 } (by decide)).1⟩

/-! ## Claim C8 -/

/-- C8: the degenerate-statistics guards hold — zScore returns 0 whenever
the standard-deviation argument is 0 (in particular zScore(5,5,0) = 0), and
a series whose previous window has mean exactly 0 is skipped entirely by
detectRegressions (no alert). -/
theorem degenerate_guards (sq : ℚ → ℚ) :
    (∀ value populationMean : ℚ, zScore value populationMean 0 = 0)
    ∧ zScore 5 5 0 = 0
    ∧ (∀ (cfg : AnalyticsConfig) (now : ℚ) (k : String) (pts : List MetricDataPoint),
        mean (regPreviousWindow cfg pts) = 0 →
        regressionForSeries sq cfg now k pts = none) := by
  refine ⟨fun v m => by simp [zScore], by simp [zScore], ?_⟩
  intro cfg now k pts h
  simp [regressionForSeries, h]

/-- C8 witness: the previous-window guard applied to a series whose first
ten timestamp-sorted values alternate 5 and -5 (mean exactly 0). -/
theorem degenerate_guards_witness :
    mean (regPreviousWindow defaultConfig ptsZeroPrev) = 0
    ∧ regressionForSeries sqZero defaultConfig 0 "m" ptsZeroPrev = none :=
  ⟨by decide,
    (degenerate_guards sqZero).2.2 defaultConfig 0 "m" ptsZeroPrev (by decide)⟩

/-! ## Claim C9 -/

/-- C9: the three analysis methods only read the series store (each sorts a
copy of a series, never the stored array) — in the state-passing embedding
every call returns the state it received, so the stored points, their
order, the series count and the data-point counts are all unchanged. -/
theorem analyses_preserve_state (sq : ℚ → ℚ) (now : ℚ) (st : DetectorState)
    (name : String) (url : Option String) :
    (detectAnomaliesRun sq st).2 = st
    ∧ (detectRegressionsRun sq now st).2 = st
    ∧ (analyzeTrendRun st name url).2 = st
    ∧ (detectAnomaliesRun sq st).2.series = st.series
    ∧ getSeriesCount (detectAnomaliesRun sq st).2 = getSeriesCount st
    ∧ getDataPointCount (detectRegressionsRun sq now st).2 name url =
        getDataPointCount st name url :=
  ⟨rfl, rfl, rfl, rfl, rfl, rfl⟩

/-! ## Claim C10 -/

theorem regressionForSeries_severity_fallback (sq : ℚ → ℚ) (cfg : AnalyticsConfig)
    (now : ℚ) (k : String) (pts : List MetricDataPoint) (a : RegressionAlert)
    (h : regressionForSeries sq cfg now k pts = some a)
    (hpc : a.percentageChange ≤ 3/10) :
    a.severity = getSeverity a.metric a.currentValue (fun _ => Option.none) := by
  simp only [regressionForSeries] at h
  split_ifs at h <;> try exact Option.noConfusion h
  all_goals obtain rfl := Option.some.inj h
  all_goals dsimp only at hpc ⊢
  all_goals exfalso
  all_goals linarith

/-- C10: caller-supplied custom thresholds never influence regression
alerts — replacing the configured customThresholds map leaves the
detectRegressions result unchanged, and every alert with percentageChange
at most 0.3 carries the severity computed by getSeverity from the metric
name and current mean with no custom thresholds (built-in table only). -/
theorem detectRegressions_ignores_custom_thresholds (sq : ℚ → ℚ) (now : ℚ)
    (st : DetectorState) (c : String → Option MetricThresholds) :
    detectRegressions sq now
        { st with config := { st.config with customThresholds := c } } =
      detectRegressions sq now st
    ∧ ∀ a ∈ detectRegressions sq now st, a.percentageChange ≤ 3/10 →
        a.severity = getSeverity a.metric a.currentValue (fun _ => Option.none) := by
  refine ⟨rfl, ?_⟩
  intro a ha hpc
  simp only [detectRegressions, detectRegressionsRun, List.mem_filterMap] at ha
  obtain ⟨kv, _, h⟩ := ha
  exact regressionForSeries_severity_fallback sq st.config now kv.1 kv.2 a h hpc

/-- C10 witness: the mild fixture (25% degradation) falls to the
getSeverity fallback, which rates 1250 against the built-in LCP boundary
4000 as info. -/
theorem detectRegressions_ignores_custom_thresholds_witness :
    alertMild ∈ detectRegressions sq4 0 stMild
    ∧ alertMild.percentageChange ≤ 3/10
    ∧ alertMild.severity =
        getSeverity alertMild.metric alertMild.currentValue (fun _ => Option.none) :=
  ⟨by decide, by decide,
    (detectRegressions_ignores_custom_thresholds sq4 0 stMild (fun _ => Option.none)).2
      alertMild (by decide) (by decide)⟩

end Analyzer
